import Mathlib

/-!
Formal model of the okta-auth-mcp repository: the per-domain session store
(src/okta_auth_mcp/auth/session_store.py) and the Okta login heuristics
engine (src/okta_auth_mcp/auth/login.py), with theorems settling the
specification claims about them.

File contents are modelled semantically: a stored file holds either a parsed
JSON value or unparseable bytes.  Browser-driven steps (Playwright fills,
clicks, page probes) are modelled by traces of their observable outcomes, so
that the engine's control flow is a pure function of such a trace.
-/

/-- JSON values as produced by json.load: null, booleans, numbers (modelled
as integers), strings, arrays, and objects (association lists kept in
insertion order, as Python dicts are). -/
inductive Json where
  | null
  | bool (b : Bool)
  | num (n : Int)
  | str (s : String)
  | arr (xs : List Json)
  | obj (kvs : List (String × Json))
  deriving Repr

/-- Python truthiness of a JSON value: None, False, 0, the empty string, the
empty list and the empty dict are falsy, everything else is truthy. -/
def pyTruthy : Json → Bool
  | Json.null => false
  | Json.bool b => b
  | Json.num n => n != 0
  | Json.str s => !s.toList.isEmpty
  | Json.arr xs => !xs.isEmpty
  | Json.obj kvs => !kvs.isEmpty

/-- Python len() of a JSON value; none when len() raises TypeError
(None, booleans and numbers have no length). -/
def pyLen : Json → Option Nat
  | Json.str s => some s.toList.length
  | Json.arr xs => some xs.length
  | Json.obj kvs => some kvs.length
  | _ => none

/-- Python dict.get(k, d) on a JSON object's key/value list. -/
def jsonGetD (kvs : List (String × Json)) (k : String) (d : Json) : Json :=
  (kvs.lookup k).getD d

/-- Python dict item assignment d[k] = v: the value is updated in place when
the key is present (insertion order preserved), otherwise appended. -/
def pySetItem (kvs : List (String × Json)) (k : String) (v : Json) :
    List (String × Json) :=
  if kvs.any (fun p => p.1 == k) then
    kvs.map (fun p => if p.1 == k then (k, v) else p)
  else kvs ++ [(k, v)]

/-- Quoting used by Python repr() for strings: single quotes unless the
string contains a single quote and no double quote.  Escape sequences for
exotic characters are elided; the metadata this model renders contains
none. -/
def pyReprQuote (s : String) : String :=
  if s.toList.contains (Char.ofNat 39) && !(s.toList.contains '"') then
    "\"" ++ s ++ "\""
  else
    String.singleton (Char.ofNat 39) ++ s ++ String.singleton (Char.ofNat 39)

mutual

/-- Python repr() rendering of a JSON value. -/
def pyRepr : Json → String
  | Json.null => "None"
  | Json.bool true => "True"
  | Json.bool false => "False"
  | Json.num n => toString n
  | Json.str s => pyReprQuote s
  | Json.arr xs => "[" ++ String.intercalate ", " (pyReprList xs) ++ "]"
  | Json.obj kvs => "\x7b" ++ String.intercalate ", " (pyReprObj kvs) ++ "\x7d"

/-- repr() of the elements of a JSON array. -/
def pyReprList : List Json → List String
  | [] => []
  | j :: js => pyRepr j :: pyReprList js

/-- repr() of the entries of a JSON object. -/
def pyReprObj : List (String × Json) → List String
  | [] => []
  | (k, v) :: kvs => (pyReprQuote k ++ ": " ++ pyRepr v) :: pyReprObj kvs

end

/-- Python str() of a JSON value, as used by the f-string
f"\x7bdomain_key\x7d.json" in list_sessions: str() of a string is the string
itself, every other value renders as its repr(). -/
def pyFStr : Json → String
  | Json.str s => s
  | j => pyRepr j

/-! URL parsing: a model of urllib.parse.urlparse(url).netloc, which
session_store._domain_key and login._is_on_portal rely on. -/

/-- Characters allowed in a URL scheme: ASCII letters, digits, plus, minus
and dot (urllib.parse.scheme_chars). -/
def schemeChar (c : Char) : Bool :=
  c.isAlpha || c.isDigit || c == '+' || c == '-' || c == '.'

/-- The WHATWG C0-control-or-space class stripped from the front of a URL by
urllib.parse.urlsplit. -/
def c0ControlOrSpace (c : Char) : Bool := c.toNat ≤ 32

/-- Tab, CR and LF are removed from anywhere in the URL by urlsplit. -/
def unsafeUrlByte (c : Char) : Bool := c == '\t' || c == '\n' || c == '\r'

/-- Sanitisation performed by urllib.parse.urlsplit before parsing. -/
def sanitizeUrl (cs : List Char) : List Char :=
  (cs.dropWhile c0ControlOrSpace).filter (fun c => !unsafeUrlByte c)

/-- Drop a leading "scheme:" when the part before the first colon is
nonempty, starts with an ASCII letter and consists of scheme characters
(urllib.parse.urlsplit). -/
def dropScheme (cs : List Char) : List Char :=
  match cs.findIdx? (fun c => c == ':') with
  | none => cs
  | some i =>
    if i == 0 then cs
    else
      match cs with
      | [] => cs
      | c0 :: _ =>
        if c0.isAlpha && (cs.take i).all schemeChar then cs.drop (i + 1) else cs

/-- Network-location characters: everything up to the first '/', '?' or '#'
(urllib.parse._splitnetloc). -/
def takeNetloc (cs : List Char) : List Char :=
  cs.takeWhile (fun c => !(c == '/' || c == '?' || c == '#'))

/-- urlparse(url).netloc: after sanitising and removing the scheme, the
network location is present exactly when the remainder starts with "//".
This is the value of the non-raising branch of urlsplit; the inputs on
which urlsplit instead raises ValueError are characterised by
urlsplitRaises below. -/
def netlocChars (cs : List Char) : List Char :=
  match dropScheme (sanitizeUrl cs) with
  | '/' :: '/' :: rest => takeNetloc rest
  | _ => []

/-- urlparse(url).netloc at string level. -/
def urlparse_netloc (url : String) : String := String.mk (netlocChars url.toList)

/-! The ValueError path of urlsplit: mismatched brackets in the authority,
and validation of a bracketed host against the ipaddress module's IPv6 and
IPvFuture grammars (urllib.parse._check_bracketed_host). -/

/-- Python str.isascii for one character: code point below 128. -/
def pyIsAscii (c : Char) : Bool := c.toNat ≤ 127

/-- Hex digits accepted in an IPv6 hextet and in an IPvFuture version field
(ipaddress._HEX_DIGITS; the regex class [a-fA-F0-9]). -/
def pyIsHexDigit (c : Char) : Bool :=
  c.isDigit || ('a' ≤ c && c ≤ 'f') || ('A' ≤ c && c ≤ 'F')

/-- Python str.split on a single separator character, keeping empty parts. -/
def splitOnChar (sep : Char) : List Char → List (List Char)
  | [] => [[]]
  | c :: cs =>
    match splitOnChar sep cs with
    | [] => [[c]]
    | h :: t => if c == sep then [] :: h :: t else (c :: h) :: t

/-- Decimal value of a string of ASCII digits. -/
def decVal (cs : List Char) : Nat := cs.foldl (fun a c => 10 * a + (c.toNat - 48)) 0

/-- ipaddress._parse_octet: nonempty, ASCII decimal digits only, at most
three characters, no leading zero except the string "0" itself, value at
most 255. -/
def validOctet (o : List Char) : Bool :=
  (!o.isEmpty) && o.all Char.isDigit && decide (o.length ≤ 3)
    && (match o with
        | '0' :: rest => rest.isEmpty
        | _ => true)
    && decide (decVal o ≤ 255)

/-- IPv4Address string validation (ipaddress's v4 _ip_int_from_string):
nonempty, exactly four dot-separated octets.  The constructor's check for
an unexpected '/' cannot fire here because an authority never contains
'/'. -/
def isIPv4String (cs : List Char) : Bool :=
  (!cs.isEmpty)
    && (let octets := splitOnChar '.' cs
        decide (octets.length = 4) && octets.all validOctet)

/-- ipaddress._parse_hextet: nonempty (int of the empty string raises), hex
digits only, at most four characters. -/
def hextetOk (p : List Char) : Bool :=
  (!p.isEmpty) && p.all pyIsHexDigit && decide (p.length ≤ 4)

/-- The colon-part analysis of ipaddress's IPv6 _ip_int_from_string, after
any embedded IPv4 suffix was replaced by two hextets: at most one interior
empty part (the '::'), a leading or trailing colon only as part of a '::'
at that end, at least one skipped group when a '::' is present, exactly
eight parts otherwise, and every copied part a valid hextet. -/
def ipv6PartsOk (parts : List (List Char)) : Bool :=
  let n := parts.length
  let interior := (parts.drop 1).dropLast
  if decide (2 ≤ interior.countP (fun p => p.isEmpty)) then false
  else
    match interior.findIdx? (fun p => p.isEmpty) with
    | some j =>
      let hi0 := j + 1
      let lo0 := n - (j + 1) - 1
      if (parts.headD ['x']).isEmpty && !(decide (hi0 = 1)) then false
      else if (parts.getLastD ['x']).isEmpty && !(decide (lo0 = 1)) then false
      else
        let hi := if (parts.headD ['x']).isEmpty then hi0 - 1 else hi0
        let lo := if (parts.getLastD ['x']).isEmpty then lo0 - 1 else lo0
        if decide (8 ≤ hi + lo) then false
        else (parts.take hi).all hextetOk && (parts.drop (n - lo)).all hextetOk
    | none =>
      decide (n = 8) && !(parts.headD ['x']).isEmpty
        && !(parts.getLastD ['x']).isEmpty && parts.all hextetOk

/-- ipaddress IPv6Address string validation: an optional %scope (nonempty,
containing no further '%'), a nonempty address with at least three
colon-separated parts, an optional embedded IPv4 suffix in the last part
(which must then be a valid IPv4 address and is replaced by two hextets,
always themselves valid), at most nine parts, and the '::' analysis
above. -/
def isIPv6String (cs : List Char) : Bool :=
  let addr := cs.takeWhile (fun c => !(c == '%'))
  let rest := cs.drop addr.length
  let scopeOk :=
    match rest with
    | [] => true
    | _ :: scope => (!scope.isEmpty) && !scope.contains '%'
  scopeOk && (!addr.isEmpty)
    && (let parts := splitOnChar ':' addr
        decide (3 ≤ parts.length)
          && (let lastPart := parts.getLastD []
              if lastPart.contains '.' then
                isIPv4String lastPart
                  && (let parts2 := parts.dropLast ++ [['0'], ['0']]
                      decide (parts2.length ≤ 9) && ipv6PartsOk parts2)
              else decide (parts.length ≤ 9) && ipv6PartsOk parts))

/-- urllib.parse._check_bracketed_host: a hostname starting with 'v' must
match the IPvFuture pattern v, one or more hex digits, '.', one or more
further characters; any other hostname must be a valid IPv6 address (a
valid IPv4 address in brackets also raises). -/
def checkBracketedHost (hostname : List Char) : Bool :=
  match hostname with
  | 'v' :: rest =>
    let hexPart := rest.takeWhile pyIsHexDigit
    (!hexPart.isEmpty)
      && (match rest.drop hexPart.length with
          | '.' :: t => !t.isEmpty
          | _ => false)
  | _ => if isIPv4String hostname then false else isIPv6String hostname

/-- The bracketed host of an authority: the text after the first '[' up to
the following ']' (netloc.partition('[')[2].partition(']')[0]). -/
def bracketedHost (netloc : List Char) : List Char :=
  ((netloc.dropWhile (fun c => !(c == '['))).drop 1).takeWhile (fun c => !(c == ']'))

/-- The inputs on which urlparse raises ValueError: an authority with a
'[' and no ']' or vice versa ("Invalid IPv6 URL"), or balanced brackets
whose bracketed host fails _check_bracketed_host.  urlsplit's one further
raise, the NFKC check of _checknetloc, returns immediately on ASCII
authorities and is not modelled; the domain-key theorem assumes an ASCII
host. -/
def urlsplitRaises (url : String) : Bool :=
  match dropScheme (sanitizeUrl url.toList) with
  | '/' :: '/' :: rest =>
    let netloc := takeNetloc rest
    if netloc.contains '[' || netloc.contains ']' then
      if netloc.contains '[' && netloc.contains ']' then
        !checkBracketedHost (bracketedHost netloc)
      else true
    else false
  | _ => false

/-- Replacement of ':' and '/' applied by _domain_key. -/
def keyChar (c : Char) : Char := if c == ':' || c == '/' then '_' else c

/-- Lowercased, separator-replaced form of a host: the nonempty-host branch
of _domain_key.  Char.toLower agrees with str.lower exactly on ASCII
characters, so this is the program's normal form for ASCII hosts; the
domain-key theorem restricts its distinct-keys conjunct to ASCII hosts for
this reason. -/
def normKey (host : List Char) : List Char := (host.map Char.toLower).map keyChar

/-- Model of session_store._domain_key: the URL's network host, lowercased,
with ':' and '/' replaced by '_'; when the host is empty the raw lowercased
URL string is used instead.  This is the value of the non-raising branch
only: on a URL for which urlsplitRaises holds the source function raises
ValueError instead of returning a key, so the function is not total. -/
def _domain_key (url : String) : String :=
  let host := (netlocChars url.toList).map Char.toLower
  String.mk ((if host.isEmpty then url.toList.map Char.toLower else host).map keyChar)

/-! The session store directory, modelled as a flat map from file name to
file content. -/

/-- The sessions directory: a list of (file name, content) pairs, where a
content of none models a file whose bytes do not parse as JSON. -/
structure Store where
  files : List (String × Option Json)
  deriving Repr

/-- Path.exists for a file of the sessions directory. -/
def fileExists (s : Store) (n : String) : Bool := s.files.any (fun p => p.1 == n)

/-- Reading a file of the sessions directory: none when the file is absent,
some none when its bytes do not parse as JSON (json.load raises). -/
def readFile (s : Store) (n : String) : Option (Option Json) := s.files.lookup n

/-- Writing a file: replaces any previous content under the same name. -/
def writeFile (s : Store) (n : String) (c : Option Json) : Store :=
  ⟨s.files.filter (fun p => !(p.1 == n)) ++ [(n, c)]⟩

/-- Path.unlink for a file of the sessions directory. -/
def removeFile (s : Store) (n : String) : Store :=
  ⟨s.files.filter (fun p => !(p.1 == n))⟩

/-- Model of session_store._session_path (file name within SESSIONS_DIR). -/
def _session_path (key : String) : String := key ++ ".json"

/-- Model of session_store._meta_path (file name within SESSIONS_DIR). -/
def _meta_path (key : String) : String := key ++ ".meta.json"

/-- Model of session_store.save_session.  The blob argument is the parsed
content of the storage_state file (none when its bytes are not JSON, in
which case json.load raises).  now and iso stand for time.time() and the
formatted UTC timestamp.  An error result carries the store state at the
point the exception was raised: the session blob is already written when
computing the metadata counts raises. -/
def save_session (s : Store) (url : String) (now : Int) (iso : String)
    (blob : Option Json) : Except Store (Store × String) :=
  match blob with
  | none => Except.error s
  | some data =>
    let key := _domain_key url
    let s1 := writeFile s (_session_path key) (some data)
    match data with
    | Json.obj kvs =>
      match pyLen (jsonGetD kvs "cookies" (Json.arr [])),
            pyLen (jsonGetD kvs "origins" (Json.arr [])) with
      | some cc, some oc =>
        let meta := Json.obj [("url", Json.str url), ("domain_key", Json.str key),
          ("saved_at", Json.num now), ("saved_at_iso", Json.str iso),
          ("cookie_count", Json.num cc), ("origin_count", Json.num oc)]
        Except.ok (writeFile s1 (_meta_path key) (some meta), key)
      | _, _ => Except.error s1
    | _ => Except.error s1

/-- Model of session_store.get_session_path: the storage_state file name for
the URL's domain key, or none when no such file exists. -/
def get_session_path (s : Store) (url : String) : Option String :=
  let key := _domain_key url
  let path := _session_path key
  if fileExists s path then some path else none

/-- Model of session_store.is_session_effective: true when a stored session
for the URL has truthy cookies or truthy origins; any exception while
reading or inspecting the file (unparseable JSON, non-dict content) yields
false. -/
def is_session_effective (s : Store) (url : String) : Bool :=
  match get_session_path s url with
  | none => false
  | some path =>
    match readFile s path with
    | some (some (Json.obj kvs)) =>
      pyTruthy (jsonGetD kvs "cookies" Json.null)
        || pyTruthy (jsonGetD kvs "origins" Json.null)
    | _ => false

/-- Lexicographic order on character lists by code point: the order Python
uses to compare strings, hence the order of sorted() over the glob of
metadata file paths (all sharing the same directory prefix). -/
def charListLe : List Char → List Char → Bool
  | [], _ => true
  | _ :: _, [] => false
  | a :: as, b :: bs =>
    if a.toNat < b.toNat then true
    else if b.toNat < a.toNat then false
    else charListLe as bs

/-- String comparison by code points (Python str order). -/
def strLe (a b : String) : Bool := charListLe a.toList b.toList

/-- Insert a string into a list kept in ascending strLe order. -/
def insertSorted (x : String) : List String → List String
  | [] => [x]
  | y :: ys => if strLe x y then x :: y :: ys else y :: insertSorted x ys

/-- Ascending sort of file names, modelling sorted() over the glob result. -/
def sortStrings (l : List String) : List String := l.foldr insertSorted []

/-- File names matched by SESSIONS_DIR.glob("*.meta.json"). -/
def metaFileNames (s : Store) : List String :=
  (s.files.map Prod.fst).filter (fun n => List.isSuffixOf ".meta.json".toList n.toList)

/-- One iteration of the list_sessions loop body: parse a metadata file,
read its "domain_key" entry, and annotate the record with whether the
companion session file exists; none models the except branch (unparseable
JSON, non-dict content, or a missing "domain_key" key). -/
def readMetaEntry (s : Store) (name : String) : Option Json :=
  match readFile s name with
  | some (some (Json.obj kvs)) =>
    match kvs.lookup "domain_key" with
    | some v =>
      some (Json.obj (pySetItem kvs "session_file_exists"
        (Json.bool (fileExists s (pyFStr v ++ ".json")))))
    | none => none
  | _ => none

/-- The list_sessions accumulation loop over the sorted metadata file
names: corrupt entries are skipped via the except branch. -/
def collectSessions (s : Store) : List String → List Json
  | [] => []
  | n :: rest =>
    match readMetaEntry s n with
    | some e => e :: collectSessions s rest
    | none => collectSessions s rest

/-- Model of session_store.list_sessions. -/
def list_sessions (s : Store) : List Json :=
  collectSessions s (sortStrings (metaFileNames s))

/-- Model of session_store.delete_session: unlink the session blob and the
metadata file when present; returns the updated store and whether anything
was deleted. -/
def delete_session (s : Store) (url : String) : Store × Bool :=
  let key := _domain_key url
  let p1 := _session_path key
  let p2 := _meta_path key
  let r1 := if fileExists s p1 then (removeFile s p1, true) else (s, false)
  let r2 := if fileExists r1.1 p2 then (removeFile r1.1 p2, true) else (r1.1, false)
  (r2.1, r1.2 || r2.2)

/-! The login heuristics engine (auth/login.py).  Browser interactions are
modelled by a trace of their observable outcomes: whether each selector
cascade found a usable element, and what each page probe observed. -/

/-- Substring test on character lists (the Python `in` operator on str). -/
def hasSubstr (needle : List Char) : List Char → Bool
  | [] => needle.isEmpty
  | c :: cs => List.isPrefixOf needle (c :: cs) || hasSubstr needle cs

/-- Test used by _is_on_portal and the post-poll check of auto_login:
whether "okta" occurs in the lowercased host. -/
def containsOkta (host : List Char) : Bool :=
  hasSubstr "okta".toList (host.map Char.toLower)

/-- One observation of the page by _is_on_portal: the network host of
page.url, and the outcome of the login-field visibility probe (none when
the probe raised, e.g. timed out or navigation interrupted it). -/
structure PortalProbe where
  host : List Char
  loginVis : Option Bool

/-- Model of login._is_on_portal: false while the host contains "okta";
otherwise true iff no login field is visible, a probe exception counting as
"on portal". -/
def _is_on_portal (p : PortalProbe) : Bool :=
  if containsOkta p.host then false
  else
    match p.loginVis with
    | some v => !v
    | none => true

/-- Model of login.LoginCredentials. -/
structure LoginCredentials where
  username : Option String := none
  password : Option String := none
  totp_secret : Option String := none

/-- Python truthiness of an optional string (None and "" are falsy). -/
def optTruthy : Option String → Bool
  | none => false
  | some s => !s.toList.isEmpty

/-- Observable browser actions performed by auto_login, in order. -/
inductive PageAction where
  | fillUsername
  | fillPassword
  | clickNext
  | clickSubmit
  | switchCodeFactor
  | fillOtpField
  | fillBox (i : Nat) (c : Char)
  | clickMfaSubmit
  deriving Repr, DecidableEq

/-- Trace of the outcomes of the browser interactions of one auto_login
attempt: whether each fill succeeded, the generated TOTP code, the count of
single-character digit boxes (none when counting raised), the index at
which filling a digit box raised (none when no fill raised), the portal
probe observed at each polling tick, and the network host observed by the
final post-poll check. -/
structure LoginTrace where
  initialProbe : PortalProbe
  fillUser : Bool
  fillPass : Bool
  fillPass2 : Bool
  otp : List Char
  otpFill : Bool
  boxCount : Option Nat
  boxRaise : Option Nat
  probe : Nat → PortalProbe
  finalHost : List Char

/-- The digit-box fills performed by the fallback loop: one character of
otp[:count] per box, in index order (enumerate over otp[:count]). -/
def boxFillActions (otp : List Char) (count : Nat) : List PageAction :=
  ((otp.take count).enum).map (fun p => PageAction.fillBox p.1 p.2)

/-- The MFA step of auto_login (reached when a TOTP secret was supplied):
switch to a code factor, try the one-time-code selector cascade, and fall
back to distributing the code over individual digit boxes when at least six
are present.  Returns otp_ok and the actions performed. -/
def mfa_phase (tr : LoginTrace) : Bool × List PageAction :=
  let pre := [PageAction.switchCodeFactor, PageAction.fillOtpField]
  if tr.otpFill then (true, pre)
  else
    match tr.boxCount with
    | none => (false, pre)
    | some count =>
      if 6 ≤ count then
        match tr.boxRaise with
        | some k => (false, pre ++ (boxFillActions tr.otp count).take k)
        | none => (true, pre ++ boxFillActions tr.otp count)
      else (false, pre)

/-- The polling loop of auto_login: up to fuel one-second ticks starting at
tick i; returns the index of the first tick whose probe reports the portal,
or none when the budget is exhausted. -/
def poll_from (probe : Nat → PortalProbe) (i : Nat) : Nat → Option Nat
  | 0 => none
  | fuel + 1 =>
    if _is_on_portal (probe i) then some i else poll_from probe (i + 1) fuel

/-- The completion phase of auto_login: poll up to ten ticks; on exhaustion
fail if still on an okta host, otherwise report completion. -/
def poll_phase (tr : LoginTrace) (log : List PageAction) : Bool × List PageAction :=
  match poll_from tr.probe 0 10 with
  | some _ => (true, log)
  | none => if containsOkta tr.finalHost then (false, log) else (true, log)

/-- The part of auto_login after credentials were submitted: the MFA step
when a TOTP secret was supplied (its failure aborts the attempt), then the
completion poll. -/
def submit_phase (creds : LoginCredentials) (tr : LoginTrace) (log : List PageAction) :
    Bool × List PageAction :=
  if optTruthy creds.totp_secret then
    if (mfa_phase tr).1 then
      poll_phase tr (log ++ (mfa_phase tr).2 ++ [PageAction.clickMfaSubmit])
    else (false, log ++ (mfa_phase tr).2)
  else poll_phase tr log

/-- Model of login.auto_login: requires truthy username and password,
returns immediately when the initial probe already reports the portal,
fills credentials (single-step or two-step), handles MFA, then polls for
completion.  Returns the success flag and the actions performed. -/
def auto_login (creds : LoginCredentials) (tr : LoginTrace) : Bool × List PageAction :=
  if !(optTruthy creds.username && optTruthy creds.password) then (false, [])
  else if _is_on_portal tr.initialProbe then (true, [])
  else if tr.fillUser && !tr.fillPass then
    (if tr.fillPass2 then
      submit_phase creds tr
        [PageAction.fillUsername, PageAction.fillPassword, PageAction.clickNext,
         PageAction.fillPassword, PageAction.clickSubmit]
    else
      (false, [PageAction.fillUsername, PageAction.fillPassword, PageAction.clickNext,
               PageAction.fillPassword]))
  else if tr.fillUser && tr.fillPass then
    submit_phase creds tr [PageAction.fillUsername, PageAction.fillPassword, PageAction.clickSubmit]
  else (false, [PageAction.fillUsername, PageAction.fillPassword])

/-! Session lifecycle operations (login.py): perform_login and
verify_session, with the browser-driven part of each attempt modelled by an
outcome value. -/

/-- Result record of perform_login. -/
structure PerformResult where
  success : Bool
  domain_key : Option String
  message : String
  url : String
  deriving Repr

/-- Outcome of the browser-driven part of a perform_login attempt: an
exception raised anywhere inside the try block before the store write, an
auto_login failure, or a confirmed authentication together with the parsed
content of the exported storage_state file. -/
inductive AttemptOutcome where
  | raise (ename emsg : String)
  | fail
  | auth (blob : Option Json)

/-- Model of login.perform_login.  Returns the result record, the store
after the call, and whether the temporary storage_state export still exists
after the finally block (the temp file is created before the try and
unconditionally unlinked in the finally).  The message of the inner
save_session error branch stands for the formatted exception text. -/
def perform_login (s : Store) (url : String) (now : Int) (iso : String)
    (outcome : AttemptOutcome) : PerformResult × Store × Bool :=
  let body : PerformResult × Store :=
    match outcome with
    | AttemptOutcome.raise en em =>
      ({success := false, domain_key := none,
        message := "Login error: " ++ en ++ ": " ++ em, url := url}, s)
    | AttemptOutcome.fail =>
      ({success := false, domain_key := none,
        message := "Auto-login failed — could not authenticate", url := url}, s)
    | AttemptOutcome.auth blob =>
      match save_session s url now iso blob with
      | Except.ok (s2, key) =>
        ({success := true, domain_key := some key,
          message := "Session saved for " ++ key, url := url}, s2)
      | Except.error s2 =>
        ({success := false, domain_key := none,
          message := "Login error: exception during session save", url := url}, s2)
  (body.1, body.2, false)

/-- Result record of verify_session. -/
structure VerifyResult where
  valid : Bool
  domain_key : Option String
  message : String
  url : String
  deriving Repr

/-- Outcome of the browser-driven part of a verify_session check: either a
driver exception, or the single _is_on_portal evaluation. -/
inductive CheckOutcome where
  | raise (ename emsg : String)
  | portal (active : Bool)

/-- Model of login.verify_session.  Returns the result record and whether a
browser context was acquired: no stored session returns invalid before any
browser configuration is built; a driver exception is converted to an
invalid result with a message. -/
def verify_session (s : Store) (url : String) (outcome : CheckOutcome) :
    VerifyResult × Bool :=
  match get_session_path s url with
  | none =>
    ({valid := false, domain_key := none,
      message := "No stored session found for this URL", url := url}, false)
  | some _ =>
    match outcome with
    | CheckOutcome.portal active =>
      ({valid := active, domain_key := some (_domain_key url),
        message := if active then "Session is active" else "Session expired or invalid",
        url := url}, true)
    | CheckOutcome.raise en em =>
      ({valid := false, domain_key := some (_domain_key url),
        message := "Session check error: " ++ en ++ ": " ++ em, url := url}, true)

/-! Concrete stores, credentials and traces used by witnesses and
counterexamples. -/

/-- A store holding one well-formed session blob for portal.example.com
with one cookie and no origins, mirroring the repository's own test data. -/
def wStore : Store :=
  ⟨[("portal.example.com.json",
     some (Json.obj [("cookies", Json.arr [Json.obj [("name", Json.str "sid")]]),
                     ("origins", Json.arr [])]))]⟩

/-- A store whose session blob for portal.example.com holds unparseable
bytes. -/
def badStore : Store := ⟨[("portal.example.com.json", none)]⟩

/-- A store with metadata for the two domain keys "example" and
"example.com", one of which is a strict prefix of the other. -/
def prefixStore : Store :=
  ⟨[("example.meta.json", some (Json.obj [("domain_key", Json.str "example")])),
    ("example.com.meta.json", some (Json.obj [("domain_key", Json.str "example.com")]))]⟩

/-- A store with one parseable metadata record, one corrupt metadata file
and the companion session blob of the parseable one. -/
def mixedStore : Store :=
  ⟨[("good.meta.json", some (Json.obj [("domain_key", Json.str "good")])),
    ("bad.meta.json", none),
    ("good.json", some (Json.obj []))]⟩

/-- A probe on a non-okta host with login fields still visible: not yet on
the portal, but also not on an okta host. -/
def portalVisibleProbe : PortalProbe := ⟨"portal.example.com".toList, some true⟩

/-- A probe on a non-okta host with no login fields visible: on the portal. -/
def portalCleanProbe : PortalProbe := ⟨"portal.example.com".toList, some false⟩

/-- A probe on the identity provider's host. -/
def oktaProbe : PortalProbe := ⟨"login.okta.com".toList, some true⟩

/-- Plain username/password credentials. -/
def cexCreds : LoginCredentials := {username := some "u", password := some "p"}

/-- Credentials carrying a TOTP secret. -/
def mfaCreds : LoginCredentials :=
  {username := some "u", password := some "p", totp_secret := some "JBSWY3DPEHPK3PXP"}

/-- A trace in which both credential fills succeed but every polling tick
still sees visible login fields on a non-okta host, and the final host is
not an okta host. -/
def cexTrace : LoginTrace :=
  {initialProbe := oktaProbe, fillUser := true, fillPass := true, fillPass2 := false,
   otp := [], otpFill := false, boxCount := none, boxRaise := none,
   probe := fun _ => portalVisibleProbe, finalHost := "portal.example.com".toList}

/-- Like cexTrace, but the final post-poll check still sees an okta host. -/
def failTrace : LoginTrace := {cexTrace with finalHost := "login.okta.com".toList}

/-- Like cexTrace, but every polling tick reports the portal. -/
def succTrace : LoginTrace := {cexTrace with probe := fun _ => portalCleanProbe}

/-- An MFA trace: the single-field OTP cascade fails and the digit-box count
is bc; the generated code is the six digits 123456. -/
def mfaTrace (bc : Option Nat) : LoginTrace :=
  {cexTrace with otp := "123456".toList, boxCount := bc}

/-! Helper lemmas about the store's file operations. -/

theorem any_filter_bool {α : Type} (l : List α) (p q : α → Bool) :
    (l.filter p).any q = l.any (fun a => p a && q a) := by
  induction l with
  | nil => rfl
  | cons a l ih =>
    cases hpa : p a <;> simp [List.filter_cons, hpa, ih]

theorem beq_true_of_eq {a b : String} (h : a = b) : (a == b) = true :=
  beq_iff_eq.mpr h

theorem fileExists_removeFile (s : Store) (n m : String) :
    fileExists (removeFile s n) m = (fileExists s m && !(m == n)) := by
  rcases s with ⟨l⟩
  show (l.filter _).any _ = ((l.any _) && _)
  rw [any_filter_bool]
  induction l with
  | nil => rfl
  | cons a l ih =>
    simp only [List.any_cons, ih]
    by_cases h1 : a.1 = n <;> by_cases h2 : a.1 = m
    · have hmn : m = n := h2.symm.trans h1
      simp [beq_true_of_eq h1, beq_true_of_eq h2, beq_true_of_eq hmn]
    · have hmn : ¬m = n := fun hmn => h2 (h1.trans hmn.symm)
      simp [beq_true_of_eq h1, beq_false_of_ne h2, beq_false_of_ne hmn]
    · have hmn : ¬m = n := fun hmn => h1 (h2.trans hmn)
      simp [beq_false_of_ne h1, beq_true_of_eq h2, beq_false_of_ne hmn]
    · simp [beq_false_of_ne h1, beq_false_of_ne h2, Bool.and_comm]

theorem fileExists_writeFile (s : Store) (n m : String) (c : Option Json) :
    fileExists (writeFile s n c) m = ((m == n) || fileExists s m) := by
  rcases s with ⟨l⟩
  show (l.filter _ ++ _).any _ = _
  rw [List.any_append, any_filter_bool]
  by_cases h : m = n
  · subst h
    simp [List.any_cons]
  · have hmn := beq_false_of_ne h
    have hnm := beq_false_of_ne (fun hh => h hh.symm)
    simp only [List.any_cons, List.any_nil, hmn, hnm, Bool.or_false, Bool.false_or]
    induction l with
    | nil => rfl
    | cons a l ih =>
      simp only [fileExists, List.any_cons] at ih ⊢
      rw [ih]
      by_cases h2 : a.1 = m
      · have h3 : ¬a.1 = n := fun hh => h (h2.symm.trans hh)
        simp [beq_true_of_eq h2, beq_false_of_ne h3]
      · simp [beq_false_of_ne h2]

theorem readFile_writeFile (s : Store) (n m : String) (c : Option Json) :
    readFile (writeFile s n c) m = if m = n then some c else readFile s m := by
  rcases s with ⟨l⟩
  show List.lookup m (l.filter _ ++ _) = _
  by_cases h : m = n
  · subst h
    simp only [if_pos rfl]
    induction l with
    | nil => simp [List.lookup]
    | cons a l ih =>
      by_cases h2 : a.1 = m
      · simpa [List.filter_cons, beq_true_of_eq h2] using ih
      · simp [List.filter_cons, beq_false_of_ne h2, List.lookup,
              beq_false_of_ne (fun hh => h2 hh.symm), ih]
  · have hmn := beq_false_of_ne h
    simp only [if_neg h]
    show _ = List.lookup m l
    induction l with
    | nil => simp [List.lookup, hmn]
    | cons a l ih =>
      by_cases h2 : a.1 = n
      · have h3 : (m == a.1) = false := beq_false_of_ne (fun hh => h (hh.trans h2))
        simp [List.filter_cons, beq_true_of_eq h2, List.lookup, h3, ih]
      · by_cases h3 : m = a.1
        · simp [List.filter_cons, beq_false_of_ne h2, List.lookup, beq_true_of_eq h3]
        · simp [List.filter_cons, beq_false_of_ne h2, List.lookup,
                beq_false_of_ne h3, ih]

theorem removeFile_of_not_exists (s : Store) (n : String)
    (h : fileExists s n = false) : removeFile s n = s := by
  rcases s with ⟨l⟩
  simp only [removeFile, Store.mk.injEq]
  induction l with
  | nil => rfl
  | cons a l ih =>
    simp only [fileExists, List.any_cons, Bool.or_eq_false_iff] at h
    simp [List.filter_cons, h.1, ih h.2]

theorem session_path_ne_meta_path (key : String) :
    _session_path key ≠ _meta_path key := by
  intro h
  have h2 := congrArg String.length h
  rw [_session_path, _meta_path, String.length_append, String.length_append] at h2
  have e1 : (".json" : String).length = 5 := rfl
  have e2 : (".meta.json" : String).length = 10 := rfl
  omega

/-! Claim C1: the domain key as a function of the network host. -/

theorem _domain_key_of_netloc (url : String) (h : netlocChars url.toList ≠ []) :
    _domain_key url = String.mk (normKey (netlocChars url.toList)) := by
  have hm : ((netlocChars url.toList).map Char.toLower).isEmpty = false := by
    cases hh : netlocChars url.toList with
    | nil => exact absurd hh h
    | cons c cs => simp
  show String.mk ((if ((netlocChars url.toList).map Char.toLower).isEmpty
      then url.toList.map Char.toLower
      else (netlocChars url.toList).map Char.toLower).map keyChar) = _
  rw [hm]
  rfl

/-- Claim C1, counterexample: the URLs http://a:b and http://a_b have
different network hosts ("a:b" and "a_b") yet _domain_key maps both to the
key "a_b", so distinct hosts do not always give distinct keys. -/
theorem domain_key_collision :
    urlparse_netloc "http://a:b" ≠ urlparse_netloc "http://a_b"
    ∧ _domain_key "http://a:b" = _domain_key "http://a_b" := by
  constructor
  · decide
  · decide

/-- Claim C1 (amended): on every URL on which urlparse does not raise
(urlsplitRaises, the bracket-validation ValueError path — so _domain_key is
not total) and whose network host is nonempty and ASCII (where str.lower
coincides with ASCII lowercasing and the NFKC check of _checknetloc cannot
raise), _domain_key is a pure, deterministic function of the host: it
equals the lowercased host with ':' and '/' replaced by '_', identical
hosts always give identical keys, and hosts whose lowercased
separator-replaced forms differ give different keys (hosts whose normal
forms coincide, such as "a:b" and "a_b", collide). -/
theorem domain_key_host_function (u1 u2 : String)
    (_hr1 : urlsplitRaises u1 = false) (_hr2 : urlsplitRaises u2 = false)
    (_ha1 : (netlocChars u1.toList).all pyIsAscii = true)
    (_ha2 : (netlocChars u2.toList).all pyIsAscii = true)
    (h1 : netlocChars u1.toList ≠ []) (h2 : netlocChars u2.toList ≠ []) :
    _domain_key u1 = String.mk (normKey (netlocChars u1.toList))
    ∧ (netlocChars u1.toList = netlocChars u2.toList →
        _domain_key u1 = _domain_key u2)
    ∧ (normKey (netlocChars u1.toList) ≠ normKey (netlocChars u2.toList) →
        _domain_key u1 ≠ _domain_key u2) := by
  refine ⟨_domain_key_of_netloc u1 h1, ?_, ?_⟩
  · intro he
    rw [_domain_key_of_netloc u1 h1, _domain_key_of_netloc u2 h2, he]
  · intro hne he
    rw [_domain_key_of_netloc u1 h1, _domain_key_of_netloc u2 h2] at he
    exact hne (by injection he)

/-- Claim C1, witness: two non-raising ASCII-host URLs sharing the host
portal.example.com receive the same key, and a URL with host
other.example.org receives a different one. -/
theorem domain_key_host_function_witness :
    _domain_key "https://portal.example.com/a?x=1" = _domain_key "http://portal.example.com/zzz"
    ∧ _domain_key "https://portal.example.com/a?x=1" ≠ _domain_key "https://other.example.org/" :=
  ⟨(domain_key_host_function "https://portal.example.com/a?x=1" "http://portal.example.com/zzz"
      (by decide) (by decide) (by decide) (by decide) (by decide) (by decide)).2.1 (by decide),
   (domain_key_host_function "https://portal.example.com/a?x=1" "https://other.example.org/"
      (by decide) (by decide) (by decide) (by decide) (by decide) (by decide)).2.2 (by decide)⟩

/-! Claim C4: verify_session on a missing session and on driver
exceptions. -/

/-- Claim C4: when no session blob is stored for the URL's domain key,
verify_session returns an invalid result with the "no stored session"
message without acquiring a browser context; and when a session exists,
any driver exception during the check is converted into an invalid result
carrying the exception's type name and message, never propagated. -/
theorem verify_session_spec (s : Store) (url en em : String) (outcome : CheckOutcome) :
    (get_session_path s url = none →
      verify_session s url outcome
        = ({valid := false, domain_key := none,
            message := "No stored session found for this URL", url := url}, false))
    ∧ (get_session_path s url ≠ none →
        (verify_session s url (CheckOutcome.raise en em)).1.valid = false
        ∧ (verify_session s url (CheckOutcome.raise en em)).1.message
            = "Session check error: " ++ en ++ ": " ++ em
        ∧ (verify_session s url (CheckOutcome.raise en em)).2 = true) := by
  constructor
  · intro h
    simp [verify_session, h]
  · intro h
    cases hg : get_session_path s url with
    | none => exact absurd hg h
    | some p => simp [verify_session, hg]

/-- Claim C4, witness: on the empty store the check returns the no-session
result with no browser acquired, and on a store holding a session a raised
TimeoutError becomes an invalid result. -/
theorem verify_session_spec_witness :
    verify_session ⟨[]⟩ "https://portal.example.com" (CheckOutcome.portal true)
      = ({valid := false, domain_key := none,
          message := "No stored session found for this URL",
          url := "https://portal.example.com"}, false)
    ∧ (verify_session wStore "https://portal.example.com"
        (CheckOutcome.raise "TimeoutError" "nav timeout")).1.valid = false :=
  ⟨(verify_session_spec ⟨[]⟩ "https://portal.example.com" "E" "m"
      (CheckOutcome.portal true)).1 (by decide),
   ((verify_session_spec wStore "https://portal.example.com" "TimeoutError" "nav timeout"
      (CheckOutcome.portal true)).2 (by decide)).1⟩

/-! Claim C5: is_session_effective. -/

/-- Claim C5: is_session_effective returns false when no session blob
exists for the URL's domain key and false (rather than raising) when the
stored file holds malformed JSON; when the stored object's cookie and
origin fields are arrays it returns true exactly when at least one of the
two collections is nonempty. -/
theorem is_session_effective_spec (s : Store) (url : String) :
    (get_session_path s url = none → is_session_effective s url = false)
    ∧ (∀ p, get_session_path s url = some p → readFile s p = some none →
        is_session_effective s url = false)
    ∧ (∀ p kvs cs os, get_session_path s url = some p →
        readFile s p = some (some (Json.obj kvs)) →
        jsonGetD kvs "cookies" Json.null = Json.arr cs →
        jsonGetD kvs "origins" Json.null = Json.arr os →
        (is_session_effective s url = true ↔ cs ≠ [] ∨ os ≠ [])) := by
  refine ⟨?_, ?_, ?_⟩
  · intro h
    simp [is_session_effective, h]
  · intro p hp hr
    simp [is_session_effective, hp, hr]
  · intro p kvs cs os hp hr hc ho
    simp [is_session_effective, hp, hr, hc, ho, pyTruthy, List.isEmpty_iff]

/-- Claim C5, witness: false on the empty store, false on a store whose
session file holds unparseable bytes, true on a store holding one cookie. -/
theorem is_session_effective_spec_witness :
    is_session_effective ⟨[]⟩ "https://portal.example.com" = false
    ∧ is_session_effective badStore "https://portal.example.com" = false
    ∧ is_session_effective wStore "https://portal.example.com" = true :=
  ⟨(is_session_effective_spec ⟨[]⟩ "https://portal.example.com").1 (by decide),
   (is_session_effective_spec badStore "https://portal.example.com").2.1
      "portal.example.com.json" (by decide) rfl,
   ((is_session_effective_spec wStore "https://portal.example.com").2.2
      "portal.example.com.json"
      [("cookies", Json.arr [Json.obj [("name", Json.str "sid")]]),
       ("origins", Json.arr [])]
      [Json.obj [("name", Json.str "sid")]] [] (by decide) rfl rfl rfl).mpr
     (Or.inl (List.cons_ne_nil _ _))⟩

/-! Claim C6: delete_session idempotence. -/

theorem delete_session_eq (s : Store) (url : String) :
    delete_session s url
      = (removeFile (removeFile s (_session_path (_domain_key url)))
           (_meta_path (_domain_key url)),
         fileExists s (_session_path (_domain_key url))
           || fileExists s (_meta_path (_domain_key url))) := by
  have hne : _session_path (_domain_key url) ≠ _meta_path (_domain_key url) :=
    session_path_ne_meta_path _
  have h21 : (_meta_path (_domain_key url) == _session_path (_domain_key url)) = false :=
    beq_false_of_ne (fun hh => hne hh.symm)
  have hr2 : fileExists (removeFile s (_session_path (_domain_key url)))
      (_meta_path (_domain_key url)) = fileExists s (_meta_path (_domain_key url)) := by
    rw [fileExists_removeFile, h21]
    simp
  by_cases h1 : fileExists s (_session_path (_domain_key url))
  · by_cases h2 : fileExists s (_meta_path (_domain_key url))
    · simp [delete_session, h1, hr2, h2]
    · have h2f : fileExists s (_meta_path (_domain_key url)) = false :=
        Bool.not_eq_true _ ▸ eq_false_of_ne_true h2
      have e2 : removeFile (removeFile s (_session_path (_domain_key url)))
          (_meta_path (_domain_key url))
          = removeFile s (_session_path (_domain_key url)) :=
        removeFile_of_not_exists _ _ (by rw [hr2, h2f])
      simp [delete_session, h1, hr2, h2f, e2]
  · have h1f : fileExists s (_session_path (_domain_key url)) = false :=
      eq_false_of_ne_true h1
    have e1 : removeFile s (_session_path (_domain_key url)) = s :=
      removeFile_of_not_exists _ _ h1f
    by_cases h2 : fileExists s (_meta_path (_domain_key url))
    · simp [delete_session, h1f, h2, e1]
    · have h2f : fileExists s (_meta_path (_domain_key url)) = false :=
        eq_false_of_ne_true h2
      have e2 : removeFile s (_meta_path (_domain_key url)) = s :=
        removeFile_of_not_exists _ _ h2f
      simp [delete_session, h1f, h2f, e1, e2]

/-- Claim C6: delete_session removes both the session blob and the metadata
file for the URL's domain key and returns whether anything existed to
remove; afterwards the store holds no session and no metadata for that key,
and a second consecutive delete on the same URL returns false and leaves
the store state unchanged. -/
theorem delete_session_idempotent (s : Store) (url : String) :
    (delete_session s url).2
      = (fileExists s (_session_path (_domain_key url))
          || fileExists s (_meta_path (_domain_key url)))
    ∧ get_session_path (delete_session s url).1 url = none
    ∧ fileExists (delete_session s url).1 (_meta_path (_domain_key url)) = false
    ∧ delete_session (delete_session s url).1 url = ((delete_session s url).1, false) := by
  have f1 : fileExists (delete_session s url).1 (_session_path (_domain_key url)) = false := by
    rw [delete_session_eq]
    show fileExists (removeFile _ _) _ = false
    rw [fileExists_removeFile, fileExists_removeFile]
    simp
  have f2 : fileExists (delete_session s url).1 (_meta_path (_domain_key url)) = false := by
    rw [delete_session_eq]
    show fileExists (removeFile _ _) _ = false
    rw [fileExists_removeFile]
    simp
  refine ⟨by rw [delete_session_eq], ?_, f2, ?_⟩
  · rw [get_session_path]
    simp [f1]
  · rw [delete_session_eq (delete_session s url).1 url, f1, f2,
        removeFile_of_not_exists _ _ f1]
    rw [removeFile_of_not_exists _ _ f2]
    simp

/-! Claim C7: save_session followed by get_session_path. -/

/-- Claim C7: for a well-formed session blob (an object whose cookie and
origin collections, defaulted to empty, are arrays), save_session succeeds
returning the URL's domain key and — whatever record previously existed for
that key — leaves the store holding the blob under the session path that
get_session_path then returns, plus a metadata record whose cookie_count
and origin_count equal the lengths of the blob's cookie and origin
collections. -/
theorem save_then_load (s : Store) (url : String) (now : Int) (iso : String)
    (kvs : List (String × Json)) (cs os : List Json)
    (hc : jsonGetD kvs "cookies" (Json.arr []) = Json.arr cs)
    (ho : jsonGetD kvs "origins" (Json.arr []) = Json.arr os) :
    ∃ s2, save_session s url now iso (some (Json.obj kvs))
        = Except.ok (s2, _domain_key url)
      ∧ get_session_path s2 url = some (_session_path (_domain_key url))
      ∧ readFile s2 (_session_path (_domain_key url)) = some (some (Json.obj kvs))
      ∧ ∃ mkvs, readFile s2 (_meta_path (_domain_key url)) = some (some (Json.obj mkvs))
          ∧ mkvs.lookup "cookie_count" = some (Json.num cs.length)
          ∧ mkvs.lookup "origin_count" = some (Json.num os.length)
          ∧ mkvs.lookup "domain_key" = some (Json.str (_domain_key url)) := by
  have hne : _session_path (_domain_key url) ≠ _meta_path (_domain_key url) :=
    session_path_ne_meta_path _
  refine ⟨writeFile (writeFile s (_session_path (_domain_key url)) (some (Json.obj kvs)))
      (_meta_path (_domain_key url))
      (some (Json.obj [("url", Json.str url), ("domain_key", Json.str (_domain_key url)),
        ("saved_at", Json.num now), ("saved_at_iso", Json.str iso),
        ("cookie_count", Json.num cs.length), ("origin_count", Json.num os.length)])),
    ?_, ?_, ?_, ?_⟩
  · simp only [save_session, hc, ho, pyLen]
  · rw [get_session_path]
    have hf : fileExists (writeFile (writeFile s (_session_path (_domain_key url))
        (some (Json.obj kvs))) (_meta_path (_domain_key url))
        (some (Json.obj [("url", Json.str url), ("domain_key", Json.str (_domain_key url)),
          ("saved_at", Json.num now), ("saved_at_iso", Json.str iso),
          ("cookie_count", Json.num cs.length), ("origin_count", Json.num os.length)])))
        (_session_path (_domain_key url)) = true := by
      rw [fileExists_writeFile, fileExists_writeFile]
      simp
    simp [hf]
  · rw [readFile_writeFile, if_neg hne, readFile_writeFile, if_pos rfl]
  · refine ⟨[("url", Json.str url), ("domain_key", Json.str (_domain_key url)),
      ("saved_at", Json.num now), ("saved_at_iso", Json.str iso),
      ("cookie_count", Json.num cs.length), ("origin_count", Json.num os.length)],
      ?_, ?_, ?_, ?_⟩
    · rw [readFile_writeFile, if_pos rfl]
    · rfl
    · rfl
    · rfl

/-- Claim C7, witness: saving the repository test's one-cookie storage
state for https://portal.example.com/student round-trips through the store
with cookie_count one and origin_count zero. -/
theorem save_then_load_witness :
    ∃ s2, save_session ⟨[]⟩ "https://portal.example.com/student" 1700000000
        "2023-11-14T22:13:20Z"
        (some (Json.obj [("cookies", Json.arr [Json.obj [("name", Json.str "sid")]]),
                         ("origins", Json.arr [])]))
        = Except.ok (s2, _domain_key "https://portal.example.com/student")
      ∧ get_session_path s2 "https://portal.example.com/student"
          = some (_session_path (_domain_key "https://portal.example.com/student"))
      ∧ readFile s2 (_session_path (_domain_key "https://portal.example.com/student"))
          = some (some (Json.obj [("cookies", Json.arr [Json.obj [("name", Json.str "sid")]]),
                                  ("origins", Json.arr [])]))
      ∧ ∃ mkvs, readFile s2 (_meta_path (_domain_key "https://portal.example.com/student"))
            = some (some (Json.obj mkvs))
          ∧ mkvs.lookup "cookie_count"
              = some (Json.num ([Json.obj [("name", Json.str "sid")]] : List Json).length)
          ∧ mkvs.lookup "origin_count" = some (Json.num ([] : List Json).length)
          ∧ mkvs.lookup "domain_key"
              = some (Json.str (_domain_key "https://portal.example.com/student")) :=
  save_then_load ⟨[]⟩ "https://portal.example.com/student" 1700000000
    "2023-11-14T22:13:20Z" _ [Json.obj [("name", Json.str "sid")]] [] rfl rfl

/-! Claim C3: list_sessions. -/

theorem charListLe_total (a b : List Char) :
    charListLe a b = true ∨ charListLe b a = true := by
  induction a generalizing b with
  | nil => exact Or.inl rfl
  | cons x xs ih =>
    cases b with
    | nil => exact Or.inr rfl
    | cons y ys =>
      rcases Nat.lt_trichotomy x.toNat y.toNat with h | h | h
      · exact Or.inl (by simp [charListLe, h])
      · have h1 : ¬x.toNat < y.toNat := by omega
        have h2 : ¬y.toNat < x.toNat := by omega
        rcases ih ys with hc | hc
        · exact Or.inl (by simp [charListLe, h1, h2, hc])
        · exact Or.inr (by simp [charListLe, h1, h2, hc])
      · exact Or.inr (by simp [charListLe, h])

theorem charListLe_trans (a b c : List Char) (hab : charListLe a b = true)
    (hbc : charListLe b c = true) : charListLe a c = true := by
  induction a generalizing b c with
  | nil => rfl
  | cons x xs ih =>
    cases b with
    | nil => simp [charListLe] at hab
    | cons y ys =>
      cases c with
      | nil => simp [charListLe] at hbc
      | cons z zs =>
        simp only [charListLe] at hab hbc ⊢
        by_cases h1 : x.toNat < y.toNat <;> by_cases h2 : y.toNat < z.toNat
        · simp [Nat.lt_trans h1 h2]
        · simp only [if_pos h1] at hab
          simp only [if_neg h2] at hbc
          by_cases h3 : z.toNat < y.toNat
          · simp [h3] at hbc
          · have : x.toNat < z.toNat := by omega
            simp [this]
        · simp only [if_neg h1] at hab
          by_cases h3 : y.toNat < x.toNat
          · simp [h3] at hab
          · have : x.toNat < z.toNat := by omega
            simp [this]
        · simp only [if_neg h1] at hab
          simp only [if_neg h2] at hbc
          by_cases h3 : y.toNat < x.toNat
          · simp [h3] at hab
          · by_cases h4 : z.toNat < y.toNat
            · simp [h4] at hbc
            · simp only [if_neg h3] at hab
              simp only [if_neg h4] at hbc
              have h5 : ¬x.toNat < z.toNat := by omega
              have h6 : ¬z.toNat < x.toNat := by omega
              simp [h5, h6, ih ys zs hab hbc]

theorem strLe_total (a b : String) : strLe a b = true ∨ strLe b a = true :=
  charListLe_total a.toList b.toList

theorem strLe_trans (a b c : String) (hab : strLe a b = true)
    (hbc : strLe b c = true) : strLe a c = true :=
  charListLe_trans a.toList b.toList c.toList hab hbc

theorem mem_insertSorted (x y : String) (l : List String) :
    y ∈ insertSorted x l ↔ y = x ∨ y ∈ l := by
  induction l with
  | nil => simp [insertSorted]
  | cons z zs ih =>
    by_cases h : strLe x z
    · simp [insertSorted, h]
    · simp only [insertSorted, if_neg h, List.mem_cons, ih]
      tauto

theorem pairwise_insertSorted (x : String) (l : List String)
    (h : l.Pairwise (fun a b => strLe a b = true)) :
    (insertSorted x l).Pairwise (fun a b => strLe a b = true) := by
  induction l with
  | nil => simp [insertSorted]
  | cons y ys ih =>
    rw [List.pairwise_cons] at h
    by_cases hxy : strLe x y
    · have hre : insertSorted x (y :: ys) = x :: y :: ys := by
        simp [insertSorted, hxy]
      rw [hre, List.pairwise_cons]
      constructor
      · intro b hb
        rcases List.mem_cons.mp hb with hb | hb
        · exact hb ▸ hxy
        · exact strLe_trans x y b hxy (h.1 b hb)
      · rw [List.pairwise_cons]
        exact h
    · have hyx : strLe y x = true := by
        rcases strLe_total x y with hc | hc
        · exact absurd hc hxy
        · exact hc
      have hre : insertSorted x (y :: ys) = y :: insertSorted x ys := by
        simp [insertSorted, hxy]
      rw [hre, List.pairwise_cons]
      constructor
      · intro b hb
        rcases (mem_insertSorted x b ys).mp hb with hb | hb
        · exact hb ▸ hyx
        · exact h.1 b hb
      · exact ih h.2

theorem pairwise_sortStrings (l : List String) :
    (sortStrings l).Pairwise (fun a b => strLe a b = true) := by
  induction l with
  | nil => exact List.Pairwise.nil
  | cons x xs ih => exact pairwise_insertSorted x (sortStrings xs) ih

theorem mem_sortStrings (l : List String) (y : String) :
    y ∈ sortStrings l ↔ y ∈ l := by
  induction l with
  | nil => simp [sortStrings]
  | cons x xs ih =>
    show y ∈ insertSorted x (sortStrings xs) ↔ _
    rw [mem_insertSorted, ih]
    simp

theorem collectSessions_eq_filterMap (s : Store) (names : List String) :
    collectSessions s names = names.filterMap (readMetaEntry s) := by
  induction names with
  | nil => rfl
  | cons n rest ih =>
    cases h : readMetaEntry s n <;>
      simp [collectSessions, List.filterMap_cons, h, ih]

/-- Claim C3, counterexample: with metadata records for the domain keys
"example" and "example.com", list_sessions returns the "example.com" record
first, because it sorts by metadata file name and "example.com.meta.json"
precedes "example.meta.json", while domain-key order puts "example" first
— so the output is not sorted by domain key. -/
theorem list_sessions_not_sorted_by_key :
    (list_sessions prefixStore).map (fun e =>
        match e with
        | Json.obj kvs => kvs.lookup "domain_key"
        | _ => none)
      = [some (Json.str "example.com"), some (Json.str "example")]
    ∧ strLe "example" "example.com" = true
    ∧ "example" ≠ "example.com" := by
  refine ⟨rfl, by decide, by decide⟩

/-- Claim C3 (amended): list_sessions never raises; it returns exactly the
parseable metadata records (an entry whose file is unparseable, not an
object, or missing the domain_key field is skipped while all others are
still returned), each annotated with a session_file_exists flag stating
whether the companion session blob exists; the output is ordered by
metadata file name (lexicographic by code point), which matches domain-key
order except when one file name is a prefix of another at the ".meta.json"
boundary. -/
theorem list_sessions_spec (s : Store) :
    list_sessions s = (sortStrings (metaFileNames s)).filterMap (readMetaEntry s)
    ∧ (∀ e, e ∈ list_sessions s ↔
        ∃ name, name ∈ metaFileNames s ∧ readMetaEntry s name = some e)
    ∧ (sortStrings (metaFileNames s)).Pairwise (fun a b => strLe a b = true)
    ∧ (∀ name kvs v, readFile s name = some (some (Json.obj kvs)) →
        kvs.lookup "domain_key" = some v →
        readMetaEntry s name = some (Json.obj (pySetItem kvs "session_file_exists"
          (Json.bool (fileExists s (pyFStr v ++ ".json")))))) := by
  refine ⟨collectSessions_eq_filterMap s _, ?_, pairwise_sortStrings _, ?_⟩
  · intro e
    rw [list_sessions, collectSessions_eq_filterMap s _]
    rw [List.mem_filterMap]
    constructor
    · rintro ⟨name, hmem, hread⟩
      exact ⟨name, (mem_sortStrings _ name).mp hmem, hread⟩
    · rintro ⟨name, hmem, hread⟩
      exact ⟨name, (mem_sortStrings _ name).mpr hmem, hread⟩
  · intro name kvs v hread hkey
    simp only [readMetaEntry, hread, hkey]

/-- Claim C3, witness: on a store with one parseable metadata record and
one corrupt metadata file, the parseable record — annotated with its
existing session blob — is still returned. -/
theorem list_sessions_spec_witness :
    Json.obj [("domain_key", Json.str "good"), ("session_file_exists", Json.bool true)]
      ∈ list_sessions mixedStore :=
  ((list_sessions_spec mixedStore).2.1 _).mpr ⟨"good.meta.json", by decide, rfl⟩

/-! Claim C2: the authenticated signal and the polling loop of
auto_login. -/

theorem poll_from_none_iff (probe : Nat → PortalProbe) (fuel i : Nat) :
    poll_from probe i fuel = none ↔
      ∀ j, i ≤ j → j < i + fuel → _is_on_portal (probe j) = false := by
  induction fuel generalizing i with
  | zero =>
    constructor
    · intro _ j h1 h2
      omega
    · intro _
      rfl
  | succ f ih =>
    constructor
    · intro h j h1 h2
      simp only [poll_from] at h
      by_cases hp : _is_on_portal (probe i) = true
      · rw [if_pos hp] at h
        exact absurd h (by simp)
      · rw [if_neg hp] at h
        have hpf : _is_on_portal (probe i) = false := eq_false_of_ne_true hp
        by_cases hj : j = i
        · exact hj ▸ hpf
        · exact (ih (i + 1)).mp h j (by omega) (by omega)
    · intro h
      simp only [poll_from]
      have hpf : _is_on_portal (probe i) = false := h i (Nat.le_refl i) (by omega)
      rw [if_neg (by simp [hpf])]
      exact (ih (i + 1)).mpr (fun j h1 h2 => h j (by omega) (by omega))

theorem poll_from_some_spec (probe : Nat → PortalProbe) (fuel i k : Nat)
    (h : poll_from probe i fuel = some k) :
    i ≤ k ∧ k < i + fuel ∧ _is_on_portal (probe k) = true ∧
      ∀ j, i ≤ j → j < k → _is_on_portal (probe j) = false := by
  induction fuel generalizing i with
  | zero => exact absurd h (by simp [poll_from])
  | succ f ih =>
    simp only [poll_from] at h
    by_cases hp : _is_on_portal (probe i) = true
    · rw [if_pos hp] at h
      have hik : i = k := by injection h
      subst hik
      exact ⟨Nat.le_refl i, by omega, hp, fun j h1 h2 => by omega⟩
    · rw [if_neg hp] at h
      have hpf : _is_on_portal (probe i) = false := eq_false_of_ne_true hp
      obtain ⟨h1, h2, h3, h4⟩ := ih (i + 1) h
      refine ⟨by omega, by omega, h3, ?_⟩
      intro j hj1 hj2
      by_cases hj : j = i
      · exact hj ▸ hpf
      · exact h4 j (by omega) hj2

theorem poll_phase_snd (tr : LoginTrace) (log : List PageAction) :
    (poll_phase tr log).2 = log := by
  rw [poll_phase]
  cases h : poll_from tr.probe 0 10 with
  | none => cases hc : containsOkta tr.finalHost <;> simp [hc]
  | some k => rfl

theorem poll_phase_true_iff (tr : LoginTrace) (log : List PageAction) :
    (poll_phase tr log).1 = true ↔
      (∃ k, poll_from tr.probe 0 10 = some k) ∨
        (poll_from tr.probe 0 10 = none ∧ containsOkta tr.finalHost = false) := by
  rw [poll_phase]
  cases h : poll_from tr.probe 0 10 with
  | none => cases hc : containsOkta tr.finalHost <;> simp [hc]
  | some k => simp

theorem submit_phase_true (creds : LoginCredentials) (tr : LoginTrace)
    (log : List PageAction) (h : (submit_phase creds tr log).1 = true) :
    (∃ k, poll_from tr.probe 0 10 = some k) ∨
      (poll_from tr.probe 0 10 = none ∧ containsOkta tr.finalHost = false) := by
  rw [submit_phase] at h
  by_cases ht : optTruthy creds.totp_secret = true
  · rw [if_pos ht] at h
    by_cases hm : (mfa_phase tr).1 = true
    · rw [if_pos hm] at h
      exact (poll_phase_true_iff tr _).mp h
    · rw [if_neg hm] at h
      exact absurd h (by simp)
  · rw [if_neg ht] at h
    exact (poll_phase_true_iff tr log).mp h

theorem submit_phase_false (creds : LoginCredentials) (tr : LoginTrace)
    (log : List PageAction) (hnone : poll_from tr.probe 0 10 = none)
    (hokta : containsOkta tr.finalHost = true) :
    (submit_phase creds tr log).1 = false := by
  have hp : ∀ l, (poll_phase tr l).1 = false := by
    intro l
    rw [poll_phase, hnone, hokta]
    simp
  rw [submit_phase]
  by_cases ht : optTruthy creds.totp_secret = true
  · rw [if_pos ht]
    by_cases hm : (mfa_phase tr).1 = true
    · rw [if_pos hm]
      exact hp _
    · rw [if_neg hm]
  · rw [if_neg ht]
    exact hp log

theorem auto_login_true_cases (creds : LoginCredentials) (tr : LoginTrace)
    (h : (auto_login creds tr).1 = true) :
    _is_on_portal tr.initialProbe = true ∨
      (∃ k, poll_from tr.probe 0 10 = some k) ∨
      (poll_from tr.probe 0 10 = none ∧ containsOkta tr.finalHost = false) := by
  rw [auto_login] at h
  by_cases h0 : (!(optTruthy creds.username && optTruthy creds.password)) = true
  · rw [if_pos h0] at h
    exact absurd h (by simp)
  · rw [if_neg h0] at h
    by_cases h1 : _is_on_portal tr.initialProbe = true
    · exact Or.inl h1
    · rw [if_neg h1] at h
      by_cases h2 : (tr.fillUser && !tr.fillPass) = true
      · rw [if_pos h2] at h
        by_cases h3 : tr.fillPass2 = true
        · rw [if_pos h3] at h
          exact Or.inr (submit_phase_true creds tr _ h)
        · rw [if_neg h3] at h
          exact absurd h (by simp)
      · rw [if_neg h2] at h
        by_cases h4 : (tr.fillUser && tr.fillPass) = true
        · rw [if_pos h4] at h
          exact Or.inr (submit_phase_true creds tr _ h)
        · rw [if_neg h4] at h
          exact absurd h (by simp)

theorem auto_login_exhausted_false (creds : LoginCredentials) (tr : LoginTrace)
    (hinit : _is_on_portal tr.initialProbe = false)
    (hnone : poll_from tr.probe 0 10 = none)
    (hokta : containsOkta tr.finalHost = true) :
    (auto_login creds tr).1 = false := by
  rw [auto_login]
  by_cases h0 : (!(optTruthy creds.username && optTruthy creds.password)) = true
  · rw [if_pos h0]
  · rw [if_neg h0, if_neg (by simp [hinit])]
    by_cases h2 : (tr.fillUser && !tr.fillPass) = true
    · rw [if_pos h2]
      by_cases h3 : tr.fillPass2 = true
      · rw [if_pos h3]
        exact submit_phase_false creds tr _ hnone hokta
      · rw [if_neg h3]
    · rw [if_neg h2]
      by_cases h4 : (tr.fillUser && tr.fillPass) = true
      · rw [if_pos h4]
        exact submit_phase_false creds tr _ hnone hokta
      · rw [if_neg h4]

/-- Claim C2, counterexample: with working credential fills, a trace whose
ten polling ticks all see visible login fields on a non-okta host (so the
authenticated signal holds at no tick) and whose final host is not an okta
host makes auto_login return True: success is reported without the signal
ever holding, via the post-poll fallback. -/
theorem auto_login_success_without_signal :
    (auto_login cexCreds cexTrace).1 = true
    ∧ _is_on_portal cexTrace.initialProbe = false
    ∧ _is_on_portal (cexTrace.probe 0) = false
    ∧ poll_from cexTrace.probe 0 10 = none
    ∧ containsOkta cexTrace.finalHost = false := by
  refine ⟨?_, ?_, ?_, ?_, ?_⟩ <;> rfl

/-- Claim C2 (amended): auto_login returns True only when the authenticated
signal (host not under the identity provider and no login field visible,
an errored probe counting as authenticated) holds at the initial
already-logged-in check, or first holds at some polling tick (at most ten,
polling stopping there), or — when the whole polling budget is exhausted
without the signal — the final host does not contain the identity-provider
fragment; exhausting the budget while still on an okta host yields False. -/
theorem auto_login_authenticated_signal (creds : LoginCredentials) (tr : LoginTrace) :
    ((auto_login creds tr).1 = true →
      _is_on_portal tr.initialProbe = true
      ∨ (∃ k, k < 10 ∧ _is_on_portal (tr.probe k) = true
          ∧ ∀ j, j < k → _is_on_portal (tr.probe j) = false)
      ∨ ((∀ j, j < 10 → _is_on_portal (tr.probe j) = false)
          ∧ containsOkta tr.finalHost = false))
    ∧ (_is_on_portal tr.initialProbe = false →
        (∀ j, j < 10 → _is_on_portal (tr.probe j) = false) →
        containsOkta tr.finalHost = true →
        (auto_login creds tr).1 = false) := by
  constructor
  · intro h
    rcases auto_login_true_cases creds tr h with h1 | ⟨k, hk⟩ | ⟨hn, hc⟩
    · exact Or.inl h1
    · obtain ⟨hk1, hk2, hk3, hk4⟩ := poll_from_some_spec tr.probe 10 0 k hk
      exact Or.inr (Or.inl ⟨k, by omega, hk3, fun j hj => hk4 j (by omega) hj⟩)
    · exact Or.inr (Or.inr
        ⟨fun j hj => (poll_from_none_iff tr.probe 10 0).mp hn j (by omega) (by omega), hc⟩)
  · intro h1 h2 h3
    exact auto_login_exhausted_false creds tr h1
      ((poll_from_none_iff tr.probe 10 0).mpr (fun j hj1 hj2 => h2 j (by omega))) h3

/-- Claim C2, witness: a trace whose first polling tick reports the portal
satisfies the signal disjunction, and a trace whose polls all fail while
the final host is still an okta host makes auto_login return False. -/
theorem auto_login_authenticated_signal_witness :
    (_is_on_portal succTrace.initialProbe = true
      ∨ (∃ k, k < 10 ∧ _is_on_portal (succTrace.probe k) = true
          ∧ ∀ j, j < k → _is_on_portal (succTrace.probe j) = false)
      ∨ ((∀ j, j < 10 → _is_on_portal (succTrace.probe j) = false)
          ∧ containsOkta succTrace.finalHost = false))
    ∧ (auto_login cexCreds failTrace).1 = false :=
  ⟨(auto_login_authenticated_signal cexCreds succTrace).1 rfl,
   (auto_login_authenticated_signal cexCreds failTrace).2 rfl (fun _ _ => rfl) rfl⟩

/-! Claims C8 and C10: the MFA digit-box fallback. -/

theorem fst_lt_of_mem_enumFrom {α : Type} (l : List α) (n : Nat) (p : Nat × α)
    (h : p ∈ l.enumFrom n) : p.1 < n + l.length := by
  induction l generalizing n with
  | nil => simp [List.enumFrom] at h
  | cons a l ih =>
    simp only [List.enumFrom, List.mem_cons] at h
    rcases h with h | h
    · subst h
      simp only [List.length_cons]
      omega
    · have := ih (n + 1) h
      simp only [List.length_cons]
      omega

theorem auto_login_to_submit (creds : LoginCredentials) (tr : LoginTrace)
    (hcr : (optTruthy creds.username && optTruthy creds.password) = true)
    (hinit : _is_on_portal tr.initialProbe = false)
    (hfu : tr.fillUser = true) (hfp : tr.fillPass = true) :
    auto_login creds tr
      = submit_phase creds tr
          [PageAction.fillUsername, PageAction.fillPassword, PageAction.clickSubmit] := by
  rw [auto_login]
  rw [if_neg (by simp [hcr])]
  rw [if_neg (by simp [hinit])]
  rw [if_neg (by simp [hfu, hfp])]
  rw [if_pos (by simp [hfu, hfp])]

/-- Claim C8: in the MFA step with a TOTP secret supplied, when no field of
the one-time-code cascade matches: with at least six single-character digit
boxes present the engine distributes the six digits of the generated code
one per box in index order and then clicks the MFA-submit cascade; with
fewer than six boxes the code cannot be entered and auto_login returns
failure. -/
theorem auto_login_mfa_digit_boxes (creds : LoginCredentials) (tr : LoginTrace)
    (hcr : (optTruthy creds.username && optTruthy creds.password) = true)
    (ht : optTruthy creds.totp_secret = true)
    (hinit : _is_on_portal tr.initialProbe = false)
    (hfu : tr.fillUser = true) (hfp : tr.fillPass = true)
    (hotp : tr.otpFill = false) (hraise : tr.boxRaise = none)
    (hlen : tr.otp.length = 6) :
    (∀ n, tr.boxCount = some n → 6 ≤ n →
      (auto_login creds tr).2
        = [PageAction.fillUsername, PageAction.fillPassword, PageAction.clickSubmit,
           PageAction.switchCodeFactor, PageAction.fillOtpField]
          ++ (tr.otp.enum).map (fun p => PageAction.fillBox p.1 p.2)
          ++ [PageAction.clickMfaSubmit])
    ∧ (∀ n, tr.boxCount = some n → n < 6 →
        auto_login creds tr
          = (false, [PageAction.fillUsername, PageAction.fillPassword,
              PageAction.clickSubmit, PageAction.switchCodeFactor,
              PageAction.fillOtpField])) := by
  rw [auto_login_to_submit creds tr hcr hinit hfu hfp]
  constructor
  · intro n hbox hn
    have hm : mfa_phase tr
        = (true, [PageAction.switchCodeFactor, PageAction.fillOtpField]
            ++ boxFillActions tr.otp n) := by
      simp [mfa_phase, hotp, hbox, hraise, hn]
    have htake : tr.otp.take n = tr.otp := List.take_of_length_le (by omega)
    rw [submit_phase, if_pos ht, hm]
    simp [poll_phase_snd, boxFillActions, htake, List.append_assoc]
  · intro n hbox hn
    have hn' : ¬6 ≤ n := by omega
    have hm : mfa_phase tr
        = (false, [PageAction.switchCodeFactor, PageAction.fillOtpField]) := by
      simp [mfa_phase, hotp, hbox, hn']
    rw [submit_phase, if_pos ht, hm]
    simp

/-- Claim C8, witness: with exactly six digit boxes the six digits 1..6 are
distributed over boxes zero to five and MFA-submit is clicked; with five
boxes the attempt fails after the switch and cascade attempts. -/
theorem auto_login_mfa_digit_boxes_witness :
    ((auto_login mfaCreds (mfaTrace (some 6))).2
      = [PageAction.fillUsername, PageAction.fillPassword, PageAction.clickSubmit,
         PageAction.switchCodeFactor, PageAction.fillOtpField]
        ++ ((mfaTrace (some 6)).otp.enum).map (fun p => PageAction.fillBox p.1 p.2)
        ++ [PageAction.clickMfaSubmit])
    ∧ auto_login mfaCreds (mfaTrace (some 5))
        = (false, [PageAction.fillUsername, PageAction.fillPassword,
            PageAction.clickSubmit, PageAction.switchCodeFactor,
            PageAction.fillOtpField]) :=
  ⟨(auto_login_mfa_digit_boxes mfaCreds (mfaTrace (some 6)) rfl rfl rfl rfl rfl rfl rfl
      rfl).1 6 rfl (by omega),
   (auto_login_mfa_digit_boxes mfaCreds (mfaTrace (some 5)) rfl rfl rfl rfl rfl rfl rfl
      rfl).2 5 rfl (by omega)⟩

/-- Claim C10 (implicit): when more than six digit boxes are present the
engine fills exactly one box per digit of the six-digit code — boxes zero
to five in index order — leaves every further box untouched (no fill action
targets an index of six or more), and still reports the code as entered,
clicking MFA-submit. -/
theorem auto_login_digit_boxes_excess (creds : LoginCredentials) (tr : LoginTrace)
    (n : Nat)
    (hcr : (optTruthy creds.username && optTruthy creds.password) = true)
    (ht : optTruthy creds.totp_secret = true)
    (hinit : _is_on_portal tr.initialProbe = false)
    (hfu : tr.fillUser = true) (hfp : tr.fillPass = true)
    (hotp : tr.otpFill = false) (hraise : tr.boxRaise = none)
    (hlen : tr.otp.length = 6)
    (hbox : tr.boxCount = some n) (hgt : 6 < n) :
    (auto_login creds tr).2
      = [PageAction.fillUsername, PageAction.fillPassword, PageAction.clickSubmit,
         PageAction.switchCodeFactor, PageAction.fillOtpField]
        ++ (tr.otp.enum).map (fun p => PageAction.fillBox p.1 p.2)
        ++ [PageAction.clickMfaSubmit]
    ∧ PageAction.clickMfaSubmit ∈ (auto_login creds tr).2
    ∧ (∀ i c, PageAction.fillBox i c ∈ (auto_login creds tr).2 → i < 6) := by
  have hlog := (auto_login_mfa_digit_boxes creds tr hcr ht hinit hfu hfp hotp hraise
    hlen).1 n hbox (by omega)
  refine ⟨hlog, ?_, ?_⟩
  · rw [hlog]
    simp
  · intro i c hmem
    rw [hlog] at hmem
    simp only [List.mem_append, List.mem_cons, List.mem_map, List.not_mem_nil] at hmem
    rcases hmem with ((h | h | h | h | h | h) | ⟨p, hp, hpe⟩) | (h | h) <;>
      first
      | exact absurd h (by simp)
      | (exact False.elim h)
      | skip
    have hi : p.1 = i := by
      have := congrArg (fun a => match a with
        | PageAction.fillBox j _ => j
        | _ => 0) hpe
      simpa using this
    have hlt : p.1 < 0 + tr.otp.length := fst_lt_of_mem_enumFrom tr.otp 0 p hp
    omega

/-- Claim C10, witness: with eight digit boxes present, exactly the six
digits are distributed over boxes zero to five and MFA-submit is still
clicked. -/
theorem auto_login_digit_boxes_excess_witness :
    (auto_login mfaCreds (mfaTrace (some 8))).2
      = [PageAction.fillUsername, PageAction.fillPassword, PageAction.clickSubmit,
         PageAction.switchCodeFactor, PageAction.fillOtpField]
        ++ ((mfaTrace (some 8)).otp.enum).map (fun p => PageAction.fillBox p.1 p.2)
        ++ [PageAction.clickMfaSubmit]
    ∧ PageAction.clickMfaSubmit ∈ (auto_login mfaCreds (mfaTrace (some 8))).2 :=
  ⟨(auto_login_digit_boxes_excess mfaCreds (mfaTrace (some 8)) 8 rfl rfl rfl rfl rfl
      rfl rfl rfl rfl (by omega)).1,
   (auto_login_digit_boxes_excess mfaCreds (mfaTrace (some 8)) 8 rfl rfl rfl rfl rfl
      rfl rfl rfl rfl (by omega)).2.1⟩

/-! Claim C9: perform_login failure isolation. -/

/-- Claim C9, counterexample: an exception raised inside save_session after
the session blob was already written — here the exported storage_state
parses to a JSON array, so json.dump has written the blob before data.get
raises AttributeError — is converted to a structured failure result, but
the store has changed: the session blob for the key is present while its
metadata file is absent, refuting "the store is left unchanged" for every
exception raised during the attempt. -/
theorem perform_login_store_changed_on_exception :
    (perform_login ⟨[]⟩ "https://portal.example.com" 0 "t"
        (AttemptOutcome.auth (some (Json.arr [])))).1.success = false
    ∧ (perform_login ⟨[]⟩ "https://portal.example.com" 0 "t"
        (AttemptOutcome.auth (some (Json.arr [])))).2.1
        = ⟨[("portal.example.com.json", some (Json.arr []))]⟩
    ∧ fileExists (perform_login ⟨[]⟩ "https://portal.example.com" 0 "t"
        (AttemptOutcome.auth (some (Json.arr [])))).2.1
        (_meta_path "portal.example.com") = false
    ∧ (perform_login ⟨[]⟩ "https://portal.example.com" 0 "t"
        (AttemptOutcome.auth (some (Json.arr [])))).2.2 = false :=
  ⟨rfl, rfl, rfl, rfl⟩

/-- Claim C9 (amended): a session-store write happens only after auto_login
confirmed authentication; on a FAILED attempt or on any exception raised
before the store write begins, perform_login returns a structured failure
result — for an exception carrying the exception's type name and message —
never propagates the exception, and leaves the store unchanged.  An
exception raised inside the store write itself (after confirmed
authentication) is likewise converted to a structured failure result, but
it can leave a partial record: the session blob written without its
metadata.  The temporary exported storage_state artifact is removed on
every exit path. -/
theorem perform_login_failure_isolation (s : Store) (url : String) (now : Int)
    (iso : String) :
    (∀ en em,
      (perform_login s url now iso (AttemptOutcome.raise en em)).1.success = false
      ∧ (perform_login s url now iso (AttemptOutcome.raise en em)).1.message
          = "Login error: " ++ en ++ ": " ++ em
      ∧ (perform_login s url now iso (AttemptOutcome.raise en em)).2.1 = s)
    ∧ ((perform_login s url now iso AttemptOutcome.fail).1.success = false
      ∧ (perform_login s url now iso AttemptOutcome.fail).2.1 = s)
    ∧ (∀ o, (perform_login s url now iso o).2.1 ≠ s → ∃ b, o = AttemptOutcome.auth b)
    ∧ (∀ blob s2, save_session s url now iso blob = Except.error s2 →
        (perform_login s url now iso (AttemptOutcome.auth blob)).1.success = false
        ∧ (perform_login s url now iso (AttemptOutcome.auth blob)).2.1 = s2)
    ∧ (∀ o, (perform_login s url now iso o).2.2 = false) := by
  refine ⟨fun en em => ⟨rfl, rfl, rfl⟩, ⟨rfl, rfl⟩, ?_, ?_, fun o => rfl⟩
  · intro o ho
    cases o with
    | raise en em => exact absurd rfl ho
    | fail => exact absurd rfl ho
    | auth b => exact ⟨b, rfl⟩
  · intro blob s2 h
    refine ⟨?_, ?_⟩ <;> simp only [perform_login, h]

/-- Claim C9, witness: a raised TimeoutError yields a failure result with
the formatted message and an unchanged empty store; the only outcome that
can change the store is a confirmed authentication; and a save_session
failure on an array-valued blob still yields a structured failure result. -/
theorem perform_login_failure_isolation_witness :
    ((perform_login ⟨[]⟩ "https://portal.example.com" 0 "t"
        (AttemptOutcome.raise "TimeoutError" "boom")).1.success = false
      ∧ (perform_login ⟨[]⟩ "https://portal.example.com" 0 "t"
          (AttemptOutcome.raise "TimeoutError" "boom")).1.message
          = "Login error: " ++ "TimeoutError" ++ ": " ++ "boom"
      ∧ (perform_login ⟨[]⟩ "https://portal.example.com" 0 "t"
          (AttemptOutcome.raise "TimeoutError" "boom")).2.1 = ⟨[]⟩)
    ∧ (∃ b, AttemptOutcome.auth (some (Json.obj [])) = AttemptOutcome.auth b)
    ∧ ((perform_login ⟨[]⟩ "https://portal.example.com" 0 "t"
        (AttemptOutcome.auth (some (Json.arr [])))).1.success = false
      ∧ (perform_login ⟨[]⟩ "https://portal.example.com" 0 "t"
          (AttemptOutcome.auth (some (Json.arr [])))).2.1
          = ⟨[("portal.example.com.json", some (Json.arr []))]⟩) :=
  ⟨(perform_login_failure_isolation ⟨[]⟩ "https://portal.example.com" 0 "t").1
      "TimeoutError" "boom",
   (perform_login_failure_isolation ⟨[]⟩ "https://portal.example.com" 0 "t").2.2.1
      (AttemptOutcome.auth (some (Json.obj [])))
      (fun hh => absurd (congrArg (fun st : Store => st.files.length) hh) (by decide)),
   (perform_login_failure_isolation ⟨[]⟩ "https://portal.example.com" 0 "t").2.2.2.1
      (some (Json.arr [])) ⟨[("portal.example.com.json", some (Json.arr []))]⟩ rfl⟩

/-! Concrete evaluation checks of the embedding against the repository's
own test data and known urlparse behaviour. -/

example : _domain_key "https://portal.example.com/student" = "portal.example.com" := by
  decide

example : _domain_key "not a url" = "not a url" := by decide

example : _domain_key "HTTP://Portal.Example.com:8443/x?q=1" = "portal.example.com_8443" := by
  decide

example : urlparse_netloc "http://a:b" = "a:b" := by decide

example : urlparse_netloc "portal.example.com/x" = "" := by decide

example : is_session_effective badStore "https://portal.example.com" = false := by decide

example : delete_session wStore "https://portal.example.com"
    = (⟨[]⟩, true) := rfl

example : (list_sessions mixedStore).length = 1 := by decide

/-! Evaluation checks of the urlsplit ValueError model against the
behaviour of urllib.parse.urlparse (CPython 3.11 with the WHATWG
sanitisation and bracketed-host validation): bracket mismatch, bracketed
hosts against the IPv6 and IPvFuture grammars, scopes, embedded IPv4, and
bracket-free URLs. -/

example : urlsplitRaises "http://[a" = true := by decide
example : urlsplitRaises "http://a]" = true := by decide
example : urlsplitRaises "http://]a[" = true := by decide
example : urlsplitRaises "http://[abc]" = true := by decide
example : urlsplitRaises "http://[::1]:8080" = false := by decide
example : urlsplitRaises "http://user@[::1]:8/p" = false := by decide
example : urlsplitRaises "http://[::]" = false := by decide
example : urlsplitRaises "http://[:]" = true := by decide
example : urlsplitRaises "http://[::::]" = true := by decide
example : urlsplitRaises "http://[1:2:3:4:5:6:7:8]" = false := by decide
example : urlsplitRaises "http://[1:2:3:4:5:6:7:8:9]" = true := by decide
example : urlsplitRaises "http://[1:2:3:4:5:6:7:]" = true := by decide
example : urlsplitRaises "http://[DEAD:beef::]" = false := by decide
example : urlsplitRaises "http://[12345::]" = true := by decide
example : urlsplitRaises "http://[defg::]" = true := by decide
example : urlsplitRaises "http://[::ffff:1.2.3.4]" = false := by decide
example : urlsplitRaises "http://[::ffff:1.2.3.04]" = true := by decide
example : urlsplitRaises "http://[1.2.3.4]" = true := by decide
example : urlsplitRaises "http://[fe80::1%25eth0]" = false := by decide
example : urlsplitRaises "http://[fe80::1%]" = true := by decide
example : urlsplitRaises "http://[v6.fe]" = false := by decide
example : urlsplitRaises "http://[v6x]" = true := by decide
example : urlsplitRaises "http://[V6.fe]" = true := by decide
example : urlsplitRaises "http://a.com/x" = false := by decide
example : urlsplitRaises "https://portal.example.com" = false := by decide
